import Mathlib

/-!
Shallow embedding of the `blogicum` blog application (apps `blog` and `pages`):
the data model and the view-layer operations of `blog/views.py`, `blog/utils.py`
and `blog/forms.py`, together with the Django framework primitives they
configure (generic view mixins, the paginator, model forms).  Machine state
(the database tables) is passed explicitly as lists of records; HTTP responses
become an explicit `Response` type; a Django `Http404` becomes an error
constructor.  Time is a natural-number instant `now`.
-/

namespace Blogicum

/-- Modelled from the spec: the `Category` entity of the data model
(`blog/models.py` is not among the sources).  Carries the `slug` used for URL
lookup and the `is_published` soft-visibility flag; the remaining fields
(`title`, `description`, `created_at`) play no role in the claims. -/
structure Category where
  slug : String
  is_published : Bool
  deriving DecidableEq, Repr

/-- Modelled from the spec: the framework-provided `User` identity, reduced to
a primary key and the `username` used for profile lookup. -/
structure User where
  id : Nat
  username : String
  deriving DecidableEq, Repr

/-- Modelled from the spec: the `Post` entity.  `category`, `location` and
`image` are optional; `author` is required; `pub_date` is a time instant. -/
structure Post where
  id : Nat
  title : String
  text : String
  pub_date : Nat
  author : User
  category : Option Category
  location : Option Nat
  image : Option String
  is_published : Bool
  deriving DecidableEq, Repr

/-- Modelled from the spec: the `Comment` entity, owned by an author and a
post and carrying a creation timestamp used for display ordering. -/
structure Comment where
  id : Nat
  text : String
  author : User
  post_id : Nat
  created_at : Nat
  deriving DecidableEq, Repr

/-- The requester of an HTTP request: `none` is an unauthenticated
(anonymous) user, which compares unequal to every `User`. -/
abbrev Requester := Option User

/-- The §3 visibility predicate exactly as the spec words it:
`is_published ∧ (category is absent ∨ category.is_published) ∧ pub_date ≤ now`.
This definition follows the SPEC text and is compared against the view code. -/
def visibleSpec (p : Post) (now : Nat) : Bool :=
  p.is_published &&
    (match p.category with
      | none => true
      | some c => c.is_published) &&
    decide (p.pub_date ≤ now)

/-- The comments attached to a post (`post.comments.all()`). -/
def commentsOf (cs : List Comment) (p : Post) : List Comment :=
  cs.filter (fun c => c.post_id = p.id)

/-- `created_at` ascending order on comments (`comments.order_by('created_at')`). -/
def createdAtLe (a b : Comment) : Prop := a.created_at ≤ b.created_at

instance : DecidableRel createdAtLe := fun a b => Nat.decLe a.created_at b.created_at

/-- Outcome of `PostDetailView.get_context_data` (`blog/views.py`).  `ok`
carries the post together with the context entries built after the checks:
the comment list ordered by `created_at` and the comment count.
`attributeError` is the unhandled Python `AttributeError` raised when
`post.category.is_published` is evaluated on an absent (`None`) category. -/
inductive DetailResult where
  | ok (post : Post) (comments : List Comment) (comment_count : Nat)
  | http404 (msg : String)
  | attributeError
  deriving DecidableEq, Repr

def DetailResult.isOk : DetailResult → Bool
  | DetailResult.ok _ _ _ => true
  | _ => false

def detailMsg : String := "Этот пост доступен только автору публикации."

/-- The successful branch of `get_context_data`: comments of the post ordered
by `created_at`, and their count. -/
def detailOk (p : Post) (cs : List Comment) : DetailResult :=
  DetailResult.ok p (List.insertionSort createdAtLe (commentsOf cs p))
    (commentsOf cs p).length

/-- `PostDetailView.get_context_data` (`blog/views.py` lines 116-132).  When
the requester is not the author it evaluates, in Python's short-circuit
order: `not post.is_published or not post.category.is_published` (the second
disjunct dereferences an absent category, an unhandled `AttributeError`),
then `post.pub_date > current_time`; each failing check raises `Http404`. -/
def postDetailView (p : Post) (cs : List Comment) (requester : Requester)
    (now : Nat) : DetailResult :=
  if requester ≠ some p.author then
    if p.is_published = false then DetailResult.http404 detailMsg
    else
      match p.category with
      | none => DetailResult.attributeError
      | some c =>
        if c.is_published = false then DetailResult.http404 detailMsg
        else if now < p.pub_date then DetailResult.http404 detailMsg
        else detailOk p cs
  else detailOk p cs

/-- HTTP responses produced by the mutation views: redirects (to a post's
detail page, the global listing, a profile, or the login page), the
`PermissionDenied` 403 raised by `UserPassesTestMixin`, and the 404 raised
by `get_object_or_404`. -/
inductive Response where
  | redirectDetail (pk : Nat)
  | redirectIndex
  | redirectProfile (username : String)
  | redirectLogin
  | forbidden
  | notFoundPage
  deriving DecidableEq, Repr

/-- `OnlyAuthorMixin.test_func` (`blog/views.py` lines 40-44):
`object.author == request.user`; false for an anonymous requester. -/
def onlyAuthorTest (author : User) (requester : Requester) : Bool :=
  match requester with
  | none => false
  | some u => author = u

/-- Django `UserPassesTestMixin.handle_no_permission` with the default
`raise_exception = False`: an unauthenticated requester is redirected to the
login page, an authenticated one gets `PermissionDenied` (HTTP 403). -/
def handleNoPermission (requester : Requester) : Response :=
  match requester with
  | none => Response.redirectLogin
  | some _ => Response.forbidden

/-- The editable form data of `PostUpdateView` and `PostCreateView`:
`fields = ['title', 'text', 'category', 'location', 'image', 'pub_date']`.
The author is NOT among the fields. -/
structure PostFormData where
  title : String
  text : String
  category : Option Category
  location : Option Nat
  image : Option String
  pub_date : Nat
  deriving DecidableEq, Repr

/-- A post-creation submission: the `PostFormData` the form binds, plus any
`author` value the client may have included in the request body
(`spoofed_author`), which the form ignores because `author` is not a form
field. -/
structure CreateSubmission where
  data : PostFormData
  spoofed_author : Option User
  deriving DecidableEq, Repr

/-- Modelled from the spec: the model default of the `is_published` flag on a
newly created `Post` (`blog/models.py` is not among the sources; the flag is
not a form field of `PostCreateView`).  Its value is irrelevant to the
claims. -/
def IS_PUBLISHED_DEFAULT : Bool := true

/-- An email handed to Django's `send_mail`. -/
structure Email where
  subject : String
  message : String
  from_email : String
  recipient_list : List String
  fail_silently : Bool
  deriving DecidableEq, Repr

/-- `send_email_to_admin` (`blog/utils.py` lines 9-20): builds the
notification email about a new post; `fail_silently = True`, so a transport
failure is swallowed.  This helper is DEFINED in the sources but never
called from any view. -/
def send_email_to_admin (p : Post) (u : User) : Email :=
  { subject := "Новый пост: " ++ p.title
  , message := "Пользователь " ++ u.username ++ "\n        создал пост \x27" ++ p.title ++ "\x27."
  , from_email := "user_email@blogicum.not"
  , recipient_list := ["admin_email@blogicum.not"]
  , fail_silently := true }

/-- Result of a request to `PostCreateView`: the record persisted (if any),
the emails the view sent, and the response. -/
structure CreateResult where
  created : Option Post
  emails : List Email
  response : Response
  deriving DecidableEq, Repr

/-- `PostCreateView` (`blog/views.py` lines 95-109).  `LoginRequiredMixin`
redirects an anonymous requester to the login page.  `form_valid` overwrites
`form.instance.author` with `request.user` before saving, so the persisted
author is the requester whatever the submission carried; `get_success_url`
redirects to the requester's profile.  The view sends no email: nothing in
it calls `send_email_to_admin`. -/
def postCreateView (requester : Requester) (sub : CreateSubmission)
    (newId : Nat) : CreateResult :=
  match requester with
  | none => { created := none, emails := [], response := Response.redirectLogin }
  | some u =>
    { created := some
        { id := newId
        , title := sub.data.title
        , text := sub.data.text
        , pub_date := sub.data.pub_date
        , author := u
        , category := sub.data.category
        , location := sub.data.location
        , image := sub.data.image
        , is_published := IS_PUBLISHED_DEFAULT }
    , emails := []
    , response := Response.redirectProfile u.username }

/-- `PostUpdateView` (`blog/views.py` lines 188-203).  Its `dispatch`
override redirects to the post's detail page when the requester is
unauthenticated or not the author, before any form handling; otherwise the
form updates exactly the listed fields (the author is not among them) and
`get_success_url` redirects to the detail page. -/
def postUpdateView (p : Post) (requester : Requester) (fd : PostFormData) :
    Post × Response :=
  match requester with
  | none => (p, Response.redirectDetail p.id)
  | some u =>
    if p.author ≠ u then (p, Response.redirectDetail p.id)
    else
      ({ p with
          title := fd.title
          text := fd.text
          category := fd.category
          location := fd.location
          image := fd.image
          pub_date := fd.pub_date },
        Response.redirectDetail p.id)

/-- `PostDeleteView` (`blog/views.py` lines 228-231): guarded only by
`OnlyAuthorMixin` (no `dispatch` override), so a failing ownership test goes
through `handleNoPermission`; on success the record is deleted and the view
redirects to `success_url = reverse_lazy('blog:list')`, the global listing. -/
def postDeleteView (db : List Post) (p : Post) (requester : Requester) :
    List Post × Response :=
  if onlyAuthorTest p.author requester then
    (db.filter (fun q => q.id ≠ p.id), Response.redirectIndex)
  else (db, handleNoPermission requester)

/-- The editable form data of `CommentUpdateView`, whose `fields = '__all__'`
exposes EVERY editable field of `Comment`: `text`, `author` and `post`
(`created_at` is auto-set and not editable). -/
structure CommentFormData where
  text : String
  author : User
  post_id : Nat
  deriving DecidableEq, Repr

/-- `CommentUpdateView` (`blog/views.py` lines 218-225): guarded by
`OnlyAuthorMixin`; on success the form writes every editable field —
including `author` and `post` — and `get_success_url` redirects to the
detail page of `self.object.post`, the post recorded after the update. -/
def commentUpdateView (c : Comment) (requester : Requester)
    (fd : CommentFormData) : Comment × Response :=
  if onlyAuthorTest c.author requester then
    ({ c with text := fd.text, author := fd.author, post_id := fd.post_id },
      Response.redirectDetail fd.post_id)
  else (c, handleNoPermission requester)

/-- `CommentForm` validity (`blog/forms.py`): a model form over the single
required `text` field; Django's `CharField` strips whitespace, so the form
is valid exactly when the stripped text is nonempty. -/
def commentFormValid (text : String) : Bool := !(text.trim.isEmpty)

/-- `add_comment` (`blog/views.py` lines 206-215), reached only by an
authenticated requester (`@login_required`): 404 when no post has the path
id; otherwise, when the form is valid, saves a new comment with `author`
bound to the requester and `post` to the fetched post; in every non-404 case
the response is a redirect to the post's detail page. -/
def addComment (posts : List Post) (comments : List Comment) (requester : User)
    (post_id : Nat) (text : String) (newId : Nat) (now : Nat) :
    List Comment × Response :=
  match posts.find? (fun p => p.id = post_id) with
  | none => (comments, Response.notFoundPage)
  | some p =>
    if commentFormValid text then
      (comments ++ [{ id := newId
                      text := text
                      author := requester
                      post_id := p.id
                      created_at := now }],
        Response.redirectDetail post_id)
    else (comments, Response.redirectDetail post_id)

/-- A queryset row after `.annotate(comment_count=Count('comments'))`: the
post paired with its comment count. -/
def annotate (cs : List Comment) (l : List Post) : List (Post × Nat) :=
  l.map (fun p => (p, (commentsOf cs p).length))

/-- `pub_date` descending order on annotated rows (`order_by('-pub_date')`). -/
def pubDateDesc (a b : Post × Nat) : Prop := b.1.pub_date ≤ a.1.pub_date

instance : DecidableRel pubDateDesc :=
  fun a b => Nat.decLe b.1.pub_date a.1.pub_date

instance : IsTotal (Post × Nat) pubDateDesc :=
  ⟨fun a b => Or.symm (Nat.le_total a.1.pub_date b.1.pub_date)⟩

instance : IsTrans (Post × Nat) pubDateDesc :=
  ⟨fun _ _ _ hab hbc => Nat.le_trans hbc hab⟩

/-- The row filter of `PostListView.get_queryset` (`blog/views.py` lines
77-92): `filter(is_published=True, category__is_published=True,
pub_date__lte=now)`.  The `category__is_published` lookup is an SQL inner
join on the category relation, so a row with an absent (`NULL`) category is
excluded. -/
def indexRowKept (now : Nat) (p : Post) : Bool :=
  p.is_published &&
    (match p.category with
      | none => false
      | some c => c.is_published) &&
    decide (p.pub_date ≤ now)

/-- `PostListView.get_queryset`: filter, annotate with comment counts, order
by `pub_date` descending. -/
def postListQueryset (db : List Post) (cs : List Comment) (now : Nat) :
    List (Post × Nat) :=
  List.insertionSort pubDateDesc (annotate cs (db.filter (indexRowKept now)))

/-- Django `Paginator.num_pages` with `orphans = 0` and
`allow_empty_first_page = True`: `ceil(max(1, count) / per_page)` — one
(empty) page when the object list is empty. -/
def numPages (count per : Nat) : Nat := (max 1 count + per - 1) / per

/-- Django `Paginator.get_page` number resolution: a missing or non-integer
query parameter falls back to page 1 (`PageNotAnInteger`); a number below 1
or above `num_pages` falls back to the last page (`EmptyPage`). -/
def getPageNumber (count per : Nat) (page : Option Nat) : Nat :=
  match page with
  | none => 1
  | some n =>
    if n < 1 then numPages count per
    else if numPages count per < n then numPages count per
    else n

/-- The object slice of the resolved page: Django
`object_list[(number - 1) * per_page : number * per_page]`. -/
def pageItems {α : Type} (l : List α) (per : Nat) (page : Option Nat) :
    List α :=
  (l.drop ((getPageNumber l.length per page - 1) * per)).take per

/-- A rendered view outcome: a 404 page or a successful render carrying the
context of interest. -/
inductive ViewResult (α : Type) where
  | http404
  | ok (val : α)
  deriving DecidableEq, Repr

/-- The queryset of `profile` (`blog/views.py` lines 154-167):
`Post.objects.filter(author=user)` annotated with comment counts and ordered
by `pub_date` descending — NO visibility filtering. -/
def profileQueryset (db : List Post) (cs : List Comment) (u : User) :
    List (Post × Nat) :=
  List.insertionSort pubDateDesc (annotate cs (db.filter (fun p => p.author = u)))

/-- `profile` (`blog/views.py` lines 154-167): `get_object_or_404(User,
username=username)`, then the author's posts paginated by 10.  The rendered
context is the resolved page's rows together with the total page count. -/
def profileView (users : List User) (db : List Post) (cs : List Comment)
    (username : String) (page : Option Nat) :
    ViewResult (List (Post × Nat) × Nat) :=
  match users.find? (fun u => u.username = username) with
  | none => ViewResult.http404
  | some u =>
    let posts := profileQueryset db cs u
    ViewResult.ok (pageItems posts 10 page, numPages posts.length 10)

/-- `category_posts` (`blog/views.py` lines 135-151):
`get_object_or_404(Category, slug=slug, is_published=True)`, then
`PostListView().get_queryset().filter(category=category)` paginated by 10
(the first `post_list` assignment is dead code, immediately overwritten). -/
def categoryPostsView (categories : List Category) (db : List Post)
    (cs : List Comment) (slug : String) (now : Nat) (page : Option Nat) :
    ViewResult (List (Post × Nat) × Nat) :=
  match categories.find? (fun c => c.slug = slug && c.is_published) with
  | none => ViewResult.http404
  | some cat =>
    let posts := (postListQueryset db cs now).filter
      (fun row => row.1.category = some cat)
    ViewResult.ok (pageItems posts 10 page, numPages posts.length 10)

/-! Concrete fixtures used by counterexamples and witnesses. -/

def userA : User := { id := 1, username := "alice" }

def userB : User := { id := 2, username := "bob" }

def pubCat : Category := { slug := "life", is_published := true }

/-- A published, already-due post WITHOUT a category. -/
def orphanPost : Post :=
  { id := 5
  , title := "t"
  , text := "x"
  , pub_date := 0
  , author := userA
  , category := none
  , location := none
  , image := none
  , is_published := true }

/-- A published, already-due post with a published category. -/
def publishedPost : Post :=
  { id := 6
  , title := "u"
  , text := "y"
  , pub_date := 0
  , author := userA
  , category := some pubCat
  , location := none
  , image := none
  , is_published := true }

/-- An unpublished draft post. -/
def draftPost : Post :=
  { id := 9
  , title := "d"
  , text := "z"
  , pub_date := 100
  , author := userA
  , category := some pubCat
  , location := none
  , image := none
  , is_published := false }

/-- C1 counterexample: `orphanPost` has no category, is published and due, so
the spec's visibility predicate holds and the claim says a non-author
request succeeds; but the detail view does not return the post (it hits the
unhandled attribute access on the absent category). -/
theorem C1_counterexample :
    visibleSpec orphanPost 0 = true ∧
    some userB ≠ some orphanPost.author ∧
    (postDetailView orphanPost [] (some userB) 0).isOk = false := by decide

/-- C1 (corrected): for a non-author requester the detail view succeeds iff
the post is published, has a PRESENT published category, and is due; a
published post with an absent category makes it crash with an unhandled
attribute error (not a 404); every other failure of the predicate yields the
404; the author always gets the post. -/
theorem C1_detail_visibility (p : Post) (cs : List Comment) (u : Requester)
    (now : Nat) (h : u ≠ some p.author) :
    ((postDetailView p cs u now).isOk = true ↔
      (p.is_published = true ∧ (∃ c, p.category = some c ∧ c.is_published = true) ∧
        p.pub_date ≤ now)) ∧
    (p.is_published = true ∧ p.category = none →
      postDetailView p cs u now = DetailResult.attributeError) ∧
    ((p.is_published = false ∨ (∃ c, p.category = some c ∧ c.is_published = false) ∨
        (p.category ≠ none ∧ now < p.pub_date)) →
      postDetailView p cs u now = DetailResult.http404 detailMsg) ∧
    (postDetailView p cs (some p.author) now).isOk = true := by
  have h4 : (postDetailView p cs (some p.author) now).isOk = true := by
    simp [postDetailView, detailOk, DetailResult.isOk]
  refine ⟨?_, ?_, ?_, h4⟩
  · cases hp : p.is_published
    · simp [postDetailView, if_pos h, hp, DetailResult.isOk]
    · cases hc : p.category with
      | none => simp [postDetailView, if_pos h, hp, hc, DetailResult.isOk]
      | some c =>
        cases hcp : c.is_published
        · simp [postDetailView, if_pos h, hp, hc, hcp, DetailResult.isOk]
        · by_cases hd : now < p.pub_date
          · simp [postDetailView, if_pos h, hp, hc, hcp, hd, DetailResult.isOk]
          · simp [postDetailView, if_pos h, hp, hc, hcp, hd, detailOk,
              DetailResult.isOk]
            omega
  · rintro ⟨hp, hc⟩
    simp [postDetailView, if_pos h, hp, hc]
  · rintro (hp | ⟨c, hc, hcp⟩ | ⟨hc, hd⟩)
    · simp [postDetailView, if_pos h, hp]
    · cases hp : p.is_published
      · simp [postDetailView, if_pos h, hp]
      · simp [postDetailView, if_pos h, hp, hc, hcp]
    · obtain ⟨c, hc'⟩ := Option.ne_none_iff_exists'.mp hc
      cases hp : p.is_published
      · simp [postDetailView, if_pos h, hp]
      · cases hcp : c.is_published
        · simp [postDetailView, if_pos h, hp, hc', hcp]
        · simp [postDetailView, if_pos h, hp, hc', hcp, hd]

/-- Witness for C1: the corrected statement instantiated at `publishedPost`
requested by the non-author `userB` at time 0. -/
theorem C1_detail_visibility_witness :
    some userB ≠ some publishedPost.author ∧
    (((postDetailView publishedPost [] (some userB) 0).isOk = true ↔
      (publishedPost.is_published = true ∧
        (∃ c, publishedPost.category = some c ∧ c.is_published = true) ∧
        publishedPost.pub_date ≤ 0)) ∧
    (publishedPost.is_published = true ∧ publishedPost.category = none →
      postDetailView publishedPost [] (some userB) 0 = DetailResult.attributeError) ∧
    ((publishedPost.is_published = false ∨
        (∃ c, publishedPost.category = some c ∧ c.is_published = false) ∨
        (publishedPost.category ≠ none ∧ 0 < publishedPost.pub_date)) →
      postDetailView publishedPost [] (some userB) 0 = DetailResult.http404 detailMsg) ∧
    (postDetailView publishedPost [] (some publishedPost.author) 0).isOk = true) :=
  ⟨by decide, C1_detail_visibility publishedPost [] (some userB) 0 (by decide)⟩

/-- C10: a published post with an absent category, requested by a non-author,
does reach the `post.category.is_published` attribute access, and that
evaluation is an unhandled error — the error branch of the visibility check
is NOT total for category-less posts, which do reach it. -/
theorem C10_orphan_category_crash (p : Post) (cs : List Comment)
    (u : Requester) (now : Nat) (hcat : p.category = none)
    (hu : u ≠ some p.author) (hpub : p.is_published = true) :
    postDetailView p cs u now = DetailResult.attributeError := by
  simp [postDetailView, if_pos hu, hpub, hcat]

/-- Witness for C10: `orphanPost` requested by the non-author `userB`. -/
theorem C10_orphan_category_crash_witness :
    orphanPost.category = none ∧
    some userB ≠ some orphanPost.author ∧
    orphanPost.is_published = true ∧
    postDetailView orphanPost [] (some userB) 0 = DetailResult.attributeError :=
  ⟨by decide, by decide, by decide,
    C10_orphan_category_crash orphanPost [] (some userB) 0 (by decide)
      (by decide) (by decide)⟩

def comment1 : Comment :=
  { id := 1, text := "hi", author := userA, post_id := 5, created_at := 0 }

def fd0 : PostFormData :=
  { title := "n"
  , text := "m"
  , category := none
  , location := none
  , image := none
  , pub_date := 3 }

def sub0 : CreateSubmission := { data := fd0, spoofed_author := some userB }

/-- C2 failing input: `comment1` was created with author `userA`; its author
submits an update whose form data (every editable field, since
`CommentUpdateView` has `fields = '__all__'`) carries `author = userB`, and
the persisted comment's author becomes `userB` — the creation author is not
immutable under the comment-update operation. -/
theorem C2_comment_author_reassigned :
    comment1.author = userA ∧
    ((commentUpdateView comment1 (some userA)
        { text := "hi", author := userB, post_id := 5 }).1).author = userB ∧
    userB ≠ userA := by decide

/-- C3 counterexample: an authenticated non-author POSTing to the delete
route of `orphanPost` gets `PermissionDenied` (a 403 error page), not a
redirect to the post's detail page; the record does survive. -/
theorem C3_counterexample :
    orphanPost.author ≠ userB ∧
    (postDeleteView [orphanPost] orphanPost (some userB)).2 = Response.forbidden ∧
    Response.forbidden ≠ Response.redirectDetail orphanPost.id ∧
    (postDeleteView [orphanPost] orphanPost (some userB)).1 = [orphanPost] := by
  decide

/-- C3 (corrected): a requester other than the author leaves the post
unchanged on both routes; the EDIT route redirects to the post's detail
page, but the DELETE route answers through `handleNoPermission`: a 403 for
an authenticated non-author, a login redirect for an anonymous one. -/
theorem C3_nonauthor_post_mutation (db : List Post) (p : Post) (u : Requester)
    (fd : PostFormData) (h : u ≠ some p.author) :
    (postUpdateView p u fd).1 = p ∧
    (postUpdateView p u fd).2 = Response.redirectDetail p.id ∧
    (postDeleteView db p u).1 = db ∧
    (postDeleteView db p u).2 = handleNoPermission u := by
  cases u with
  | none => simp [postUpdateView, postDeleteView, onlyAuthorTest]
  | some v =>
    have hv : p.author ≠ v := fun he => h (congrArg some he.symm)
    simp [postUpdateView, postDeleteView, onlyAuthorTest, hv]

/-- Witness for C3: the corrected statement at the authenticated non-author
`userB` acting on `orphanPost`. -/
theorem C3_nonauthor_post_mutation_witness :
    some userB ≠ some orphanPost.author ∧
    ((postUpdateView orphanPost (some userB) fd0).1 = orphanPost ∧
     (postUpdateView orphanPost (some userB) fd0).2 =
       Response.redirectDetail orphanPost.id ∧
     (postDeleteView [orphanPost] orphanPost (some userB)).1 = [orphanPost] ∧
     (postDeleteView [orphanPost] orphanPost (some userB)).2 =
       handleNoPermission (some userB)) :=
  ⟨by decide,
    C3_nonauthor_post_mutation [orphanPost] orphanPost (some userB) fd0
      (by decide)⟩

/-- C4: every authenticated creation persists a post whose author is the
requester — whatever `spoofed_author` the submission carried — and
redirects to the requester's profile page. -/
theorem C4_create_author_forced (u : User) (sub : CreateSubmission)
    (newId : Nat) :
    (∃ p, (postCreateView (some u) sub newId).created = some p ∧
      p.author = u) ∧
    (postCreateView (some u) sub newId).response =
      Response.redirectProfile u.username := by
  exact ⟨⟨_, rfl, rfl⟩, rfl⟩

/-- C5 counterexample: `userA` successfully creates a post (a record is
persisted) yet the request sends no email whatsoever. -/
theorem C5_counterexample :
    ((postCreateView (some userA) sub0 7).created).isSome = true ∧
    (postCreateView (some userA) sub0 7).emails = [] := by decide

/-- C5 (corrected): no request to the creation view ever sends an email —
the `send_email_to_admin` helper, which does target the fixed administrative
address and swallows transport failures (`fail_silently`), is never invoked
by any view. -/
theorem C5_no_email_on_create (r : Requester) (sub : CreateSubmission)
    (newId : Nat) (p : Post) (u : User) :
    (postCreateView r sub newId).emails = [] ∧
    (send_email_to_admin p u).recipient_list = ["admin_email@blogicum.not"] ∧
    (send_email_to_admin p u).fail_silently = true := by
  refine ⟨?_, rfl, rfl⟩
  cases r <;> rfl

/-- C6 counterexample: `draftPost` is unpublished — invisible per the spec's
§3 predicate — yet `userA`'s profile page lists it (for any requester). -/
theorem C6_counterexample :
    visibleSpec draftPost 0 = false ∧
    profileView [userA] [draftPost] [] "alice" none =
      ViewResult.ok ([(draftPost, 0)], 1) := by decide

/-- C6 (corrected): when the username resolves, the profile page paginates
ALL of that user's posts — with no visibility filtering — ordered by
`pub_date` descending and annotated with comment counts; an unknown
username yields the 404. -/
theorem C6_profile_all_posts (users : List User) (db : List Post)
    (cs : List Comment) (username : String) (page : Option Nat) (u : User)
    (h : users.find? (fun v => v.username = username) = some u) :
    profileView users db cs username page =
      ViewResult.ok (pageItems (profileQueryset db cs u) 10 page,
        numPages (profileQueryset db cs u).length 10) ∧
    (∀ p n, (p, n) ∈ profileQueryset db cs u ↔
      (p ∈ db ∧ p.author = u ∧ n = (commentsOf cs p).length)) ∧
    List.Sorted pubDateDesc (profileQueryset db cs u) ∧
    (∀ users2 : List User,
      List.find? (fun v => v.username = username) users2 = none →
      profileView users2 db cs username page = ViewResult.http404) := by
  refine ⟨?_, ?_, ?_, ?_⟩
  · simp [profileView, h]
  · intro p n
    simp only [profileQueryset, List.mem_insertionSort, annotate,
      List.mem_map, List.mem_filter, decide_eq_true_eq, Prod.mk.injEq]
    constructor
    · rintro ⟨q, ⟨hq, hqa⟩, rfl, rfl⟩
      exact ⟨hq, hqa, rfl⟩
    · rintro ⟨hp, hpa, rfl⟩
      exact ⟨p, ⟨hp, hpa⟩, rfl, rfl⟩
  · exact List.sorted_insertionSort pubDateDesc _
  · intro users2 h2
    simp [profileView, h2]

/-- Witness for C6: the corrected statement at the one-user database holding
only `draftPost`. -/
theorem C6_profile_all_posts_witness :
    List.find? (fun v => v.username = "alice") [userA] = some userA ∧
    (profileView [userA] [draftPost] [] "alice" none =
      ViewResult.ok (pageItems (profileQueryset [draftPost] [] userA) 10 none,
        numPages (profileQueryset [draftPost] [] userA).length 10) ∧
    (∀ p n, (p, n) ∈ profileQueryset [draftPost] [] userA ↔
      (p ∈ [draftPost] ∧ p.author = userA ∧ n = (commentsOf [] p).length)) ∧
    List.Sorted pubDateDesc (profileQueryset [draftPost] [] userA) ∧
    (∀ users2 : List User,
      List.find? (fun v => v.username = "alice") users2 = none →
      profileView users2 [draftPost] [] "alice" none = ViewResult.http404)) :=
  ⟨by decide,
    C6_profile_all_posts [userA] [draftPost] [] "alice" none userA (by decide)⟩

/-- C7: a comment submission by an authenticated user to an existing post
always redirects to that post's detail page; a valid form appends exactly
one comment authored by the requester and attached to the fetched post; an
invalid form leaves the comment table unchanged (and still redirects). -/
theorem C7_add_comment_flow (posts : List Post) (cs : List Comment) (u : User)
    (pid : Nat) (text : String) (newId now : Nat) (p : Post)
    (h : posts.find? (fun q => q.id = pid) = some p) :
    (addComment posts cs u pid text newId now).2 = Response.redirectDetail pid ∧
    (commentFormValid text = true →
      (addComment posts cs u pid text newId now).1 =
        cs ++ [{ id := newId
                 text := text
                 author := u
                 post_id := p.id
                 created_at := now }]) ∧
    (commentFormValid text = false →
      (addComment posts cs u pid text newId now).1 = cs) := by
  cases hv : commentFormValid text <;> simp [addComment, h, hv]

/-- Witness for C7: `userB` posts the valid comment "hi" to `orphanPost`. -/
theorem C7_add_comment_flow_witness :
    List.find? (fun q => q.id = 5) [orphanPost] = some orphanPost ∧
    ((addComment [orphanPost] [] userB 5 "hi" 3 2).2 =
        Response.redirectDetail 5 ∧
    (commentFormValid "hi" = true →
      (addComment [orphanPost] [] userB 5 "hi" 3 2).1 =
        [] ++ [{ id := 3
                 text := "hi"
                 author := userB
                 post_id := orphanPost.id
                 created_at := 2 }]) ∧
    (commentFormValid "hi" = false →
      (addComment [orphanPost] [] userB 5 "hi" 3 2).1 = [])) :=
  ⟨by decide, C7_add_comment_flow [orphanPost] [] userB 5 "hi" 3 2 orphanPost
    (by decide)⟩

/-- C8 counterexample: `orphanPost` satisfies the spec's §3 visibility
predicate (absent category counts as visible) but the index queryset drops
it — the `category__is_published=True` join excludes category-less rows. -/
theorem C8_counterexample :
    visibleSpec orphanPost 0 = true ∧
    postListQueryset [orphanPost] [] 0 = [] := by decide

/-- C8 (corrected): the index contains exactly the published posts with a
PRESENT published category and a due `pub_date`, annotated with comment
counts and ordered by `pub_date` descending; §3-visible posts without a
category are excluded. -/
theorem C8_index_contents (db : List Post) (cs : List Comment) (now : Nat) :
    (∀ p n, (p, n) ∈ postListQueryset db cs now ↔
      (p ∈ db ∧ p.is_published = true ∧
        (∃ c, p.category = some c ∧ c.is_published = true) ∧
        p.pub_date ≤ now ∧ n = (commentsOf cs p).length)) ∧
    List.Sorted pubDateDesc (postListQueryset db cs now) := by
  constructor
  · intro p n
    simp only [postListQueryset, List.mem_insertionSort, annotate,
      List.mem_map, List.mem_filter, Prod.mk.injEq]
    constructor
    · rintro ⟨q, ⟨hq, hqk⟩, rfl, rfl⟩
      refine ⟨hq, ?_⟩
      cases hc : q.category with
      | none => simp [indexRowKept, hc] at hqk
      | some c =>
        simp [indexRowKept, hc] at hqk
        obtain ⟨⟨h1, h2⟩, h3⟩ := hqk
        exact ⟨h1, ⟨c, rfl, h2⟩, h3, rfl⟩
    · rintro ⟨hp, hpub, ⟨c, hc, hcp⟩, hd, rfl⟩
      exact ⟨p, ⟨hp, by simp [indexRowKept, hc, hpub, hcp, hd]⟩, rfl, rfl⟩
  · exact List.sorted_insertionSort pubDateDesc _

/-- C9 counterexample: a listing with zero visible items (the profile
queryset over an empty database) reports one page, not
`ceil(0 / 10) = 0`. -/
theorem C9_counterexample :
    (profileQueryset [] [] userA).length = 0 ∧
    ((profileQueryset [] [] userA).length + 10 - 1) / 10 = 0 ∧
    numPages (profileQueryset [] [] userA).length 10 = 1 := by decide

/-- C9 (corrected): every resolved page holds at most the fixed page size of
10 items, and the page count is `max 1 (ceil(count / 10))` — the ceiling,
except that an empty listing still has one (empty) page. -/
theorem C9_pagination (l : List (Post × Nat)) (page : Option Nat) :
    (pageItems l 10 page).length ≤ 10 ∧
    numPages l.length 10 = max 1 ((l.length + 10 - 1) / 10) := by
  constructor
  · simp only [pageItems, List.length_take]
    omega
  · simp only [numPages]
    omega

end Blogicum
